import Mathlib

/-!
Shallow embedding of the nimbasms-cli core (src/core/types.py and
src/core/api.py): the pydantic data models with their field constraints,
and the APIClient operations as functions from HTTP responses to results.
JSON numbers are restricted to integers, which covers every numeric field
of this API (balances, timestamps, codes, counts).
-/

namespace Nimba

/-- JSON values as decoded by response.json(). -/
inductive Json where
  | null : Json
  | bool (b : Bool) : Json
  | num (n : Int) : Json
  | str (s : String) : Json
  | arr (elems : List Json) : Json
  | obj (fields : List (String × Json)) : Json

/-- Key lookup in a JSON object; none on a non-object. -/
def getField : Json → String → Option Json
  | .obj fs, k => fs.lookup k
  | _, _ => none

/-- A pydantic validation failure: the field name and the violated constraint. -/
structure ValidationError where
  field : String
  msg : String
deriving DecidableEq

/-- APIError of the spec taxonomy: status code plus server detail string. -/
structure APIError where
  status : Nat
  detail : String
deriving DecidableEq

/-- Failure kinds an APIClient operation can surface. nameError models the
Python NameError raised when a method body references an entity class that
api.py never imports from types.py (its import list at api.py:10-13 covers
only Account, Extension, CreateExtension, ExtensionAction, PricingPlan and
ExtensionPublish). -/
inductive ApiFailure where
  | api (e : APIError)
  | decode (field : String)
  | fileNotFound (msg : String)
  | nameError (name : String)
deriving DecidableEq

/-- An HTTP response as seen by the client: status code and decoded JSON body. -/
structure Response where
  status : Nat
  body : Json

/-- Fallback detail used when the error body has no detail field; models the
stringified httpx.HTTPStatusError message that the command layer falls back to. -/
def genericDetail (status : Nat) : String :=
  "HTTP error " ++ toString status

/-- Detail message carried by an API error: the string under the detail key of
the response body when present, otherwise the generic fallback. Models
e.response.json().get with a default of str(e). -/
def errorDetail (resp : Response) : String :=
  match getField resp.body "detail" with
  | some (.str s) => s
  | _ => genericDetail resp.status

/-- Models response.raise_for_status(): succeeds exactly on a 2xx status,
otherwise fails with an APIError carrying the status code and detail. -/
def raiseForStatus (resp : Response) : Except ApiFailure Unit :=
  if 200 ≤ resp.status ∧ resp.status ≤ 299 then .ok ()
  else .error (.api ⟨resp.status, errorDetail resp⟩)

/-! Field-extraction helpers mirroring pydantic coercion on parse. -/

/-- Required field: present or decode failure naming the field. -/
def reqField (j : Json) (k : String) : Except ApiFailure Json :=
  match getField j k with
  | some v => .ok v
  | none => .error (.decode k)

/-- Required string field. -/
def reqStr (j : Json) (k : String) : Except ApiFailure String := do
  match ← reqField j k with
  | .str s => .ok s
  | _ => .error (.decode k)

/-- Required string field with a max_length constraint. -/
def reqStrMax (j : Json) (k : String) (maxLen : Nat) : Except ApiFailure String := do
  let s ← reqStr j k
  if s.length ≤ maxLen then .ok s else .error (.decode k)

/-- Required integer field. -/
def reqInt (j : Json) (k : String) : Except ApiFailure Int := do
  match ← reqField j k with
  | .num n => .ok n
  | _ => .error (.decode k)

/-- Required boolean field. -/
def reqBool (j : Json) (k : String) : Except ApiFailure Bool := do
  match ← reqField j k with
  | .bool b => .ok b
  | _ => .error (.decode k)

/-- Boolean field with a default used when the key is absent. -/
def optBoolD (j : Json) (k : String) (d : Bool) : Except ApiFailure Bool :=
  match getField j k with
  | none => .ok d
  | some (.bool b) => .ok b
  | some _ => .error (.decode k)

/-- Optional string field: absent or null means none. -/
def optStr (j : Json) (k : String) : Except ApiFailure (Option String) :=
  match getField j k with
  | none => .ok none
  | some .null => .ok none
  | some (.str s) => .ok (some s)
  | some _ => .error (.decode k)

/-- Optional string field with a max_length constraint. -/
def optStrMax (j : Json) (k : String) (maxLen : Nat) : Except ApiFailure (Option String) := do
  match ← optStr j k with
  | none => .ok none
  | some s => if s.length ≤ maxLen then .ok (some s) else .error (.decode k)

/-- Account model: sid, balance (plain int, no range constraint in the code),
optional webhook_url. -/
structure Account where
  sid : String
  balance : Int
  webhook_url : Option String
deriving DecidableEq

/-- Account(**json): the pydantic Account constructor applied to a decoded body. -/
def Account.parse (j : Json) : Except ApiFailure Account := do
  let sid ← reqStr j "sid"
  let balance ← reqInt j "balance"
  let webhook_url ← optStr j "webhook_url"
  .ok ⟨sid, balance, webhook_url⟩

/-- APIClient.get_account: GET /accounts, raise_for_status, then Account(**body). -/
def get_account (resp : Response) : Except ApiFailure Account := do
  raiseForStatus resp
  Account.parse resp.body

/-! Scalar coercions shared by several models. UUIDs are kept as verbatim
strings whose 8-4-4-4-12 hex shape is checked; the canonical lowercasing the
Python UUID type performs is not modelled. HttpUrl validation is abstracted
to the scheme check. -/

/-- Hexadecimal digit test for UUID groups. -/
def isHexChar (c : Char) : Bool :=
  c.isDigit || (97 ≤ c.toLower.toNat && c.toLower.toNat ≤ 102)

/-- Split a character list on dashes. -/
def splitDash : List Char → List (List Char)
  | [] => [[]]
  | c :: cs =>
      let rest := splitDash cs
      if c = '-' then [] :: rest
      else
        match rest with
        | [] => [[c]]
        | g :: gs => (c :: g) :: gs

/-- UUID wire shape: five dash-separated hex groups of sizes 8-4-4-4-12. -/
def isUUIDString (s : String) : Bool :=
  let parts := splitDash s.toList
  parts.map List.length == [8, 4, 4, 4, 12]
    && parts.all (fun p => p.all isHexChar)

/-- String-to-UUID coercion: the string itself when well formed. -/
def parseUUID (s : String) : Option String :=
  if isUUIDString s then some s else none

/-- Required UUID field. -/
def reqUUID (j : Json) (k : String) : Except ApiFailure String := do
  let s ← reqStr j k
  match parseUUID s with
  | some u => .ok u
  | none => .error (.decode k)

/-- HttpUrl validation, abstracted to the http or https scheme check. -/
def isHttpUrl (s : String) : Bool :=
  List.isPrefixOf "http://".toList s.toList
    || List.isPrefixOf "https://".toList s.toList

/-- Required URL field. -/
def reqUrl (j : Json) (k : String) : Except ApiFailure String := do
  let s ← reqStr j k
  if isHttpUrl s then .ok s else .error (.decode k)

/-- Optional URL field. -/
def optUrl (j : Json) (k : String) : Except ApiFailure (Option String) := do
  match ← optStr j k with
  | none => .ok none
  | some s => if isHttpUrl s then .ok (some s) else .error (.decode k)

/-- A pydantic datetime accepts ISO strings and epoch numbers; the textual
ISO-8601 grammar is abstracted. -/
inductive DateTimeVal where
  | iso (s : String)
  | epoch (n : Int)
deriving DecidableEq

/-- Required datetime field. -/
def reqDateTime (j : Json) (k : String) : Except ApiFailure DateTimeVal :=
  match getField j k with
  | some (.str s) => .ok (.iso s)
  | some (.num n) => .ok (.epoch n)
  | _ => .error (.decode k)

/-- List-valued field with default_factory=list: absent means empty. -/
def listFieldD {α : Type} (j : Json) (k : String)
    (parseElem : Json → Except ApiFailure α) : Except ApiFailure (List α) :=
  match getField j k with
  | none => .ok []
  | some (.arr xs) => xs.mapM parseElem
  | some _ => .error (.decode k)

/-- String element of a JSON list. -/
def strElem (k : String) : Json → Except ApiFailure String
  | .str s => .ok s
  | _ => .error (.decode k)

/-- Dict-valued field with default_factory=dict: absent means empty object. -/
def objFieldD (j : Json) (k : String) : Except ApiFailure Json :=
  match getField j k with
  | none => .ok (.obj [])
  | some (.obj fs) => .ok (.obj fs)
  | some _ => .error (.decode k)

/-! Enumerations, with their exact wire-value tables in both directions. -/

/-- AuthType enum: none, api_key, oauth2. -/
inductive AuthType where
  | NONE | API_KEY | OAUTH2
deriving DecidableEq

/-- AuthType wire values. -/
def AuthType.toWire : AuthType → String
  | .NONE => "none"
  | .API_KEY => "api_key"
  | .OAUTH2 => "oauth2"

/-- AuthType from a wire string, case-sensitively. -/
def AuthType.ofWire : String → Option AuthType
  | "none" => some .NONE
  | "api_key" => some .API_KEY
  | "oauth2" => some .OAUTH2
  | _ => none

/-- HTTPMethod enum for extension actions. -/
inductive HTTPMethod where
  | GET | POST | PUT | PATCH | DELETE
deriving DecidableEq

/-- HTTPMethod wire values. -/
def HTTPMethod.toWire : HTTPMethod → String
  | .GET => "GET"
  | .POST => "POST"
  | .PUT => "PUT"
  | .PATCH => "PATCH"
  | .DELETE => "DELETE"

/-- HTTPMethod from a wire string, case-sensitively. -/
def HTTPMethod.ofWire : String → Option HTTPMethod
  | "GET" => some .GET
  | "POST" => some .POST
  | "PUT" => some .PUT
  | "PATCH" => some .PATCH
  | "DELETE" => some .DELETE
  | _ => none

/-- MessageStatus enum. -/
inductive MessageStatus where
  | PENDING | SENT | FAILURE | NOT_AVAILABLE | RECEIVED | TOSEND
deriving DecidableEq

/-- MessageStatus wire values. -/
def MessageStatus.toWire : MessageStatus → String
  | .PENDING => "pending"
  | .SENT => "sent"
  | .FAILURE => "failure"
  | .NOT_AVAILABLE => "not_available"
  | .RECEIVED => "received"
  | .TOSEND => "tosend"

/-- MessageStatus from a wire string, case-sensitively; no default. -/
def MessageStatus.ofWire : String → Option MessageStatus
  | "pending" => some .PENDING
  | "sent" => some .SENT
  | "failure" => some .FAILURE
  | "not_available" => some .NOT_AVAILABLE
  | "received" => some .RECEIVED
  | "tosend" => some .TOSEND
  | _ => none

/-- VerificationStatus enum. -/
inductive VerificationStatus where
  | PENDING | SENT | EXPIRED | FAILURE | RECEIVED | TOO_MANY_ATTEMPTS | APPROVED
deriving DecidableEq

/-- VerificationStatus wire values. -/
def VerificationStatus.toWire : VerificationStatus → String
  | .PENDING => "pending"
  | .SENT => "sent"
  | .EXPIRED => "expired"
  | .FAILURE => "failure"
  | .RECEIVED => "received"
  | .TOO_MANY_ATTEMPTS => "too_many_attempts"
  | .APPROVED => "approved"

/-- VerificationStatus from a wire string, case-sensitively; no default. -/
def VerificationStatus.ofWire : String → Option VerificationStatus
  | "pending" => some .PENDING
  | "sent" => some .SENT
  | "expired" => some .EXPIRED
  | "failure" => some .FAILURE
  | "received" => some .RECEIVED
  | "too_many_attempts" => some .TOO_MANY_ATTEMPTS
  | "approved" => some .APPROVED
  | _ => none

/-- Required enum field: decode failure on any string outside the table. -/
def reqEnum {α : Type} (ofWire : String → Option α) (j : Json) (k : String) :
    Except ApiFailure α := do
  let s ← reqStr j k
  match ofWire s with
  | some v => .ok v
  | none => .error (.decode k)

/-! Response entity models, fields and constraints as declared in types.py. -/

/-- DeliveryMessage model. -/
structure DeliveryMessage where
  id : String
  contact : String
  status : MessageStatus
deriving DecidableEq

/-- DeliveryMessage(**json). -/
def DeliveryMessage.parse (j : Json) : Except ApiFailure DeliveryMessage := do
  let id ← reqUUID j "id"
  let contact ← reqStr j "contact"
  let status ← reqEnum MessageStatus.ofWire j "status"
  .ok ⟨id, contact, status⟩

/-- Message model. -/
structure Message where
  messageid : String
  sender_name : String
  message : String
  status : MessageStatus
  sent_at : Int
  numbers : List DeliveryMessage
deriving DecidableEq

/-- Message(**json): sender_name max 11, message max 665, enum status,
numbers defaulting to the empty list. -/
def Message.parse (j : Json) : Except ApiFailure Message := do
  let messageid ← reqUUID j "messageid"
  let sender_name ← reqStrMax j "sender_name" 11
  let message ← reqStrMax j "message" 665
  let status ← reqEnum MessageStatus.ofWire j "status"
  let sent_at ← reqInt j "sent_at"
  let numbers ← listFieldD j "numbers" DeliveryMessage.parse
  .ok ⟨messageid, sender_name, message, status, sent_at, numbers⟩

/-- Contact model. -/
structure Contact where
  contact_id : String
  name : Option String
  numero : String
  created_at : Int
  groups : List String
deriving DecidableEq

/-- Contact(**json): optional name max 400, numero required max 128,
groups defaulting to the empty list. -/
def Contact.parse (j : Json) : Except ApiFailure Contact := do
  let contact_id ← reqUUID j "contact_id"
  let name ← optStrMax j "name" 400
  let numero ← reqStrMax j "numero" 128
  let created_at ← reqInt j "created_at"
  let groups ← listFieldD j "groups" (strElem "groups")
  .ok ⟨contact_id, name, numero, created_at, groups⟩

/-- Groupe model. -/
structure Groupe where
  groupe_id : String
  name : String
  added_at : Int
  total_contact : Int
deriving DecidableEq

/-- Groupe(**json): name max 100. -/
def Groupe.parse (j : Json) : Except ApiFailure Groupe := do
  let groupe_id ← reqUUID j "groupe_id"
  let name ← reqStrMax j "name" 100
  let added_at ← reqInt j "added_at"
  let total_contact ← reqInt j "total_contact"
  .ok ⟨groupe_id, name, added_at, total_contact⟩

/-- Admissible wire values of the SenderName status Literal. -/
def senderStatusValues : List String := ["pending", "refused", "accepted"]

/-- SenderName model; status restricted to the Literal values. -/
structure SenderName where
  sendername_id : String
  name : String
  status : String
  added_at : Int
deriving DecidableEq

/-- SenderName(**json): status must be one of the Literal values exactly. -/
def SenderName.parse (j : Json) : Except ApiFailure SenderName := do
  let sendername_id ← reqUUID j "sendername_id"
  let name ← reqStr j "name"
  let status ← reqStr j "status"
  if senderStatusValues.contains status then
    let added_at ← reqInt j "added_at"
    .ok ⟨sendername_id, name, status, added_at⟩
  else .error (.decode "status")

/-- Extension model. -/
structure Extension where
  extensionid : String
  name : String
  description : String
  logo : Option String
  base_api_url : String
  auth_type : AuthType
  is_paid : Bool
  is_approved : Bool
  is_published : Bool
  documentation_url : Option String
  website_url : Option String
  created_at : DateTimeVal
  updated_at : DateTimeVal
  url : String
deriving DecidableEq

/-- Extension(**json): description max 400, enum auth_type, approval flags
defaulting to false, optional URLs, required timestamps. -/
def Extension.parse (j : Json) : Except ApiFailure Extension := do
  let extensionid ← reqUUID j "extensionid"
  let name ← reqStr j "name"
  let description ← reqStrMax j "description" 400
  let logo ← optUrl j "logo"
  let base_api_url ← reqUrl j "base_api_url"
  let auth_type ← reqEnum AuthType.ofWire j "auth_type"
  let is_paid ← reqBool j "is_paid"
  let is_approved ← optBoolD j "is_approved" false
  let is_published ← optBoolD j "is_published" false
  let documentation_url ← optUrl j "documentation_url"
  let website_url ← optUrl j "website_url"
  let created_at ← reqDateTime j "created_at"
  let updated_at ← reqDateTime j "updated_at"
  let url ← reqUrl j "url"
  .ok ⟨extensionid, name, description, logo, base_api_url, auth_type, is_paid,
       is_approved, is_published, documentation_url, website_url,
       created_at, updated_at, url⟩

/-- ExtensionAction model. -/
structure ExtensionAction where
  actionid : String
  name : String
  method : HTTPMethod
  endpoint : String
  description : String
  required_params : Json
  optional_params : Json
  response_format : Json

/-- ExtensionAction(**json): name max 100, enum method, endpoint max 255,
description max 200, parameter maps defaulting to empty objects. -/
def ExtensionAction.parse (j : Json) : Except ApiFailure ExtensionAction := do
  let actionid ← reqUUID j "actionid"
  let name ← reqStrMax j "name" 100
  let method ← reqEnum HTTPMethod.ofWire j "method"
  let endpoint ← reqStrMax j "endpoint" 255
  let description ← reqStrMax j "description" 200
  let required_params ← objFieldD j "required_params"
  let optional_params ← objFieldD j "optional_params"
  let response_format ← objFieldD j "response_format"
  .ok ⟨actionid, name, method, endpoint, description,
       required_params, optional_params, response_format⟩

/-! List operations of APIClient. Each takes the HTTP response it received;
the ones reading data under the results key fail to decode a body that is
not an object carrying a results array (the Python code would fail on the
missing key or on iterating a non-list), while list_contacts iterates the
body itself and so requires a bare array. -/

/-- The results list of an envelope body, as data followed by iteration. -/
def resultsOf (body : Json) : Except ApiFailure (List Json) :=
  match getField body "results" with
  | some (.arr xs) => .ok xs
  | _ => .error (.decode "results")

/-- APIClient.list_extensions: parse each element of body results. -/
def list_extensions (resp : Response) : Except ApiFailure (List Extension) := do
  raiseForStatus resp
  let xs ← resultsOf resp.body
  xs.mapM Extension.parse

/-- APIClient.list_actions: parse each element of body results. -/
def list_actions (resp : Response) : Except ApiFailure (List ExtensionAction) := do
  raiseForStatus resp
  let xs ← resultsOf resp.body
  xs.mapM ExtensionAction.parse

/-- APIClient.list_messages: reads the results array, but the comprehension
body Message(**msg) references Message, which api.py never imports, so the
first iteration raises NameError; only an empty results list returns (as the
empty list, with the class reference never evaluated). Modelled under
deferred annotation evaluation; on Python versions that evaluate the
List[Message] return annotation eagerly the module does not even import. -/
def list_messages (resp : Response) : Except ApiFailure (List Message) := do
  raiseForStatus resp
  let xs ← resultsOf resp.body
  match xs with
  | [] => .ok []
  | _ :: _ => .error (.nameError "Message")

/-- APIClient.list_groups: same missing import for Groupe, so any non-empty
results list raises NameError at Groupe(**group). -/
def list_groups (resp : Response) : Except ApiFailure (List Groupe) := do
  raiseForStatus resp
  let xs ← resultsOf resp.body
  match xs with
  | [] => .ok []
  | _ :: _ => .error (.nameError "Groupe")

/-- APIClient.list_sender_names: same missing import for SenderName, so any
non-empty results list raises NameError at SenderName(**name). -/
def list_sender_names (resp : Response) : Except ApiFailure (List SenderName) := do
  raiseForStatus resp
  let xs ← resultsOf resp.body
  match xs with
  | [] => .ok []
  | _ :: _ => .error (.nameError "SenderName")

/-- APIClient.list_contacts: iterates the body itself as a bare array, but
Contact(**contact) references Contact, which api.py never imports, so any
non-empty array raises NameError before a single entity is built. -/
def list_contacts (resp : Response) : Except ApiFailure (List Contact) := do
  raiseForStatus resp
  match resp.body with
  | .arr [] => .ok []
  | .arr (_ :: _) => .error (.nameError "Contact")
  | _ => .error (.decode "body")

/-! Logo upload. The request it would send is modelled explicitly so that
the absence of any network traffic on a missing file is expressible. -/

/-- One multipart file part: field name, filename, content type. -/
structure FilePart where
  field : String
  filename : String
  contentType : String
deriving DecidableEq

/-- An outgoing HTTP request as far as upload_logo shapes one. -/
structure Request where
  method : String
  url : String
  files : List FilePart
deriving DecidableEq

/-- APIClient.upload_logo: checks that the local path exists before building
any request; on a missing file it raises FileNotFoundError having issued no
request, otherwise it PATCHes the logo endpoint with a single multipart part
named logo, filename logo.png, content type image/png. The filesystem is the
fsExists predicate and the network the transport function; the second
component of the result is the list of requests actually issued. -/
def upload_logo (fsExists : String → Bool) (base_url extension_id logo_path : String)
    (transport : Request → Response) :
    Except ApiFailure Extension × List Request :=
  if !fsExists logo_path then
    (.error (.fileNotFound ("Logo file not found: " ++ logo_path)), [])
  else
    let req : Request :=
      ⟨"PATCH", base_url ++ "/extensions/" ++ extension_id ++ "/logo",
       [⟨"logo", "logo.png", "image/png"⟩]⟩
    let resp := transport req
    (do raiseForStatus resp; Extension.parse resp.body, [req])

/-! Request entity models: construct-from-input (the pydantic constructor on
user-supplied scalars), serialize-to-wire (model_dump with exclude_none set),
and parse-from-wire (the constructor on a decoded body). Constraint checks
run in field declaration order. -/

/-- Max-length check on a required string field. -/
def checkLen (field : String) (maxLen : Nat) (s : String) : Except ValidationError Unit :=
  if s.length ≤ maxLen then .ok () else .error ⟨field, "string_too_long"⟩

/-- Max-length check applied to an optional string field only when present. -/
def checkMaxLen (field : String) (maxLen : Nat) : Option String → Except ValidationError Unit
  | none => .ok ()
  | some s => checkLen field maxLen s

/-- Range check applied to an optional integer field only when present. -/
def checkRange (field : String) (lo hi : Int) : Option Int → Except ValidationError Unit
  | none => .ok ()
  | some n => if lo ≤ n ∧ n ≤ hi then .ok () else .error ⟨field, "out_of_range"⟩

/-- UUID well-formedness check on input. -/
def checkUUID (field : String) (s : String) : Except ValidationError Unit :=
  if isUUIDString s then .ok () else .error ⟨field, "uuid_invalid"⟩

/-- URL well-formedness check on a required input field. -/
def checkUrl (field : String) (s : String) : Except ValidationError Unit :=
  if isHttpUrl s then .ok () else .error ⟨field, "url_invalid"⟩

/-- URL well-formedness check on an optional input field. -/
def checkOptUrl (field : String) : Option String → Except ValidationError Unit
  | none => .ok ()
  | some s => checkUrl field s

/-- Singleton entry of a serialized mapping when the value is present,
nothing when absent: exclude_none omits the key entirely. -/
def optEntry (k : String) : Option Json → List (String × Json)
  | none => []
  | some v => [(k, v)]

/-- CreateContact request model. -/
structure CreateContact where
  name : Option String
  numero : String
  groups : List String
deriving DecidableEq

/-- CreateContact construct-from-input: optional name max 400, numero
required max 128, groups defaulting to the empty list. -/
def mkCreateContact (name : Option String) (numero : String) (groups : List String) :
    Except ValidationError CreateContact := do
  checkMaxLen "name" 400 name
  checkLen "numero" 128 numero
  .ok ⟨name, numero, groups⟩

/-- CreateContact serialize-to-wire. -/
def CreateContact.toWire (c : CreateContact) : List (String × Json) :=
  optEntry "name" (c.name.map Json.str)
    ++ [("numero", .str c.numero), ("groups", .arr (c.groups.map Json.str))]

/-- CreateContact parse-from-wire. -/
def CreateContact.parse (j : Json) : Except ApiFailure CreateContact := do
  let name ← optStrMax j "name" 400
  let numero ← reqStrMax j "numero" 128
  let groups ← listFieldD j "groups" (strElem "groups")
  .ok ⟨name, numero, groups⟩

/-- List length bounds check (min_length and max_length on a list field). -/
def checkListLen (field : String) (lo hi : Nat) (xs : List String) :
    Except ValidationError Unit :=
  if xs.length < lo then .error ⟨field, "too_short"⟩
  else if hi < xs.length then .error ⟨field, "too_long"⟩
  else .ok ()

/-- CreateMessage request model. -/
structure CreateMessage where
  sender_name : String
  «to» : List String
  message : String
deriving DecidableEq

/-- CreateMessage construct-from-input: sender_name max 11, recipient list
with min_length 1 and max_length 10, message max 665. -/
def mkCreateMessage (sender_name : String) («to» : List String) (message : String) :
    Except ValidationError CreateMessage := do
  checkLen "sender_name" 11 sender_name
  checkListLen "to" 1 10 «to»
  checkLen "message" 665 message
  .ok ⟨sender_name, «to», message⟩

/-- CreateMessage serialize-to-wire. -/
def CreateMessage.toWire (m : CreateMessage) : List (String × Json) :=
  [("sender_name", .str m.sender_name), ("to", .arr (m.«to».map Json.str)),
   ("message", .str m.message)]

/-- Required string-list field with length bounds. -/
def reqStrListLen (j : Json) (k : String) (lo hi : Nat) :
    Except ApiFailure (List String) := do
  match ← reqField j k with
  | .arr xs => do
      let ss ← xs.mapM (strElem k)
      if lo ≤ ss.length ∧ ss.length ≤ hi then .ok ss else .error (.decode k)
  | _ => .error (.decode k)

/-- CreateMessage parse-from-wire. -/
def CreateMessage.parse (j : Json) : Except ApiFailure CreateMessage := do
  let sender_name ← reqStrMax j "sender_name" 11
  let «to» ← reqStrListLen j "to" 1 10
  let message ← reqStrMax j "message" 665
  .ok ⟨sender_name, «to», message⟩

/-- The fixed placeholder UUID used as the verificationid default. -/
def defaultVerificationId : String := "c195e2f8-bca2-4173-886d-4820fd578d21"

/-- RequestVerification request model. -/
structure RequestVerification where
  verificationid : String
  «to» : String
  message : Option String
  sender_name : Option String
  expiry_time : Option Int
  attempts : Option Int
  code : Option String
  code_length : Option Int
  url : Option String
deriving DecidableEq

/-- RequestVerification construct-from-input: verificationid defaults to the
fixed placeholder UUID when absent; to required max 128; message max 153 and
sender_name max 11 when present; expiry_time in 5..30, attempts in 3..10 and
code_length in 4..8 only when present; url well formed when present. -/
def mkRequestVerification (verificationid : Option String) («to» : String)
    (message sender_name : Option String) (expiry_time attempts : Option Int)
    (code : Option String) (code_length : Option Int) (url : Option String) :
    Except ValidationError RequestVerification := do
  let vid := verificationid.getD defaultVerificationId
  checkUUID "verificationid" vid
  checkLen "to" 128 «to»
  checkMaxLen "message" 153 message
  checkMaxLen "sender_name" 11 sender_name
  checkRange "expiry_time" 5 30 expiry_time
  checkRange "attempts" 3 10 attempts
  checkRange "code_length" 4 8 code_length
  checkOptUrl "url" url
  .ok ⟨vid, «to», message, sender_name, expiry_time, attempts, code, code_length, url⟩

/-- RequestVerification serialize-to-wire: the non-optional verificationid
and to always appear; every absent optional field is omitted. -/
def RequestVerification.toWire (v : RequestVerification) : List (String × Json) :=
  ("verificationid", .str v.verificationid) :: ("to", .str v.«to»)
    :: (optEntry "message" (v.message.map Json.str)
    ++ (optEntry "sender_name" (v.sender_name.map Json.str)
    ++ (optEntry "expiry_time" (v.expiry_time.map Json.num)
    ++ (optEntry "attempts" (v.attempts.map Json.num)
    ++ (optEntry "code" (v.code.map Json.str)
    ++ (optEntry "code_length" (v.code_length.map Json.num)
    ++ optEntry "url" (v.url.map Json.str)))))))

/-- Optional integer field with a range constraint. -/
def optIntRange (j : Json) (k : String) (lo hi : Int) :
    Except ApiFailure (Option Int) :=
  match getField j k with
  | none => .ok none
  | some .null => .ok none
  | some (.num n) => if lo ≤ n ∧ n ≤ hi then .ok (some n) else .error (.decode k)
  | some _ => .error (.decode k)

/-- UUID field falling back to a default when absent. -/
def uuidFieldD (j : Json) (k : String) (d : String) : Except ApiFailure String :=
  match getField j k with
  | none => .ok d
  | some (.str s) =>
      match parseUUID s with
      | some u => .ok u
      | none => .error (.decode k)
  | some _ => .error (.decode k)

/-- RequestVerification parse-from-wire. -/
def RequestVerification.parse (j : Json) : Except ApiFailure RequestVerification := do
  let verificationid ← uuidFieldD j "verificationid" defaultVerificationId
  let «to» ← reqStrMax j "to" 128
  let message ← optStrMax j "message" 153
  let sender_name ← optStrMax j "sender_name" 11
  let expiry_time ← optIntRange j "expiry_time" 5 30
  let attempts ← optIntRange j "attempts" 3 10
  let code ← optStr j "code"
  let code_length ← optIntRange j "code_length" 4 8
  let url ← optUrl j "url"
  .ok ⟨verificationid, «to», message, sender_name, expiry_time, attempts,
       code, code_length, url⟩

/-- CheckVerification request model: status has default None and, the
default being exempt from validation, is kept optional. -/
structure CheckVerification where
  code : Int
  status : Option VerificationStatus
deriving DecidableEq

/-- CheckVerification construct-from-input: code in 1000..999999. -/
def mkCheckVerification (code : Int) (status : Option VerificationStatus) :
    Except ValidationError CheckVerification :=
  if 1000 ≤ code ∧ code ≤ 999999 then .ok ⟨code, status⟩
  else .error ⟨"code", "out_of_range"⟩

/-- CheckVerification serialize-to-wire. -/
def CheckVerification.toWire (c : CheckVerification) : List (String × Json) :=
  ("code", .num c.code)
    :: optEntry "status" (c.status.map (fun s => Json.str s.toWire))

/-- CheckVerification parse-from-wire. -/
def CheckVerification.parse (j : Json) : Except ApiFailure CheckVerification := do
  let code ←
    match ← reqInt j "code" with
    | n => if 1000 ≤ n ∧ n ≤ 999999 then pure n else .error (.decode "code")
  let status ←
    match getField j "status" with
    | none => pure none
    | some (.str s) =>
        match VerificationStatus.ofWire s with
        | some v => pure (some v)
        | none => .error (.decode "status")
    | some _ => .error (.decode "status")
  .ok ⟨code, status⟩

/-- OAuth2Config request model. -/
structure OAuth2Config where
  client_id : String
  client_secret : String
  authorization_url : String
  token_url : String
  scope_separator : String
  redirect_url : String
  available_scopes : List (String × String)
  required_scopes : List String
deriving DecidableEq

/-- OAuth2Config serialize-to-wire: every field is required. -/
def OAuth2Config.toWire (c : OAuth2Config) : List (String × Json) :=
  [("client_id", .str c.client_id), ("client_secret", .str c.client_secret),
   ("authorization_url", .str c.authorization_url), ("token_url", .str c.token_url),
   ("scope_separator", .str c.scope_separator), ("redirect_url", .str c.redirect_url),
   ("available_scopes", .obj (c.available_scopes.map (fun p => (p.1, Json.str p.2)))),
   ("required_scopes", .arr (c.required_scopes.map Json.str))]

/-- CreateExtension request model. -/
structure CreateExtension where
  name : String
  description : String
  base_api_url : String
  auth_type : AuthType
  is_paid : Bool
  documentation_url : Option String
  website_url : Option String
  oauth2_config : Option OAuth2Config
deriving DecidableEq

/-- CreateExtension construct-from-input: name max 30, description max 400,
base_api_url well formed, optional URLs checked when present. -/
def mkCreateExtension (name description base_api_url : String) (auth_type : AuthType)
    (is_paid : Bool) (documentation_url website_url : Option String)
    (oauth2_config : Option OAuth2Config) : Except ValidationError CreateExtension := do
  checkLen "name" 30 name
  checkLen "description" 400 description
  checkUrl "base_api_url" base_api_url
  checkOptUrl "documentation_url" documentation_url
  checkOptUrl "website_url" website_url
  .ok ⟨name, description, base_api_url, auth_type, is_paid,
       documentation_url, website_url, oauth2_config⟩

/-- CreateExtension serialize-to-wire. -/
def CreateExtension.toWire (e : CreateExtension) : List (String × Json) :=
  ("name", .str e.name) :: ("description", .str e.description)
    :: ("base_api_url", .str e.base_api_url) :: ("auth_type", .str e.auth_type.toWire)
    :: ("is_paid", .bool e.is_paid)
    :: (optEntry "documentation_url" (e.documentation_url.map Json.str)
    ++ (optEntry "website_url" (e.website_url.map Json.str)
    ++ optEntry "oauth2_config" (e.oauth2_config.map (fun c => Json.obj c.toWire))))

/-- OAuth2Config construct-from-input: the three HttpUrl fields are
validated at the nested model construction, in declaration order. -/
def mkOAuth2Config (client_id client_secret authorization_url token_url
    scope_separator redirect_url : String)
    (available_scopes : List (String × String)) (required_scopes : List String) :
    Except ValidationError OAuth2Config := do
  checkUrl "authorization_url" authorization_url
  checkUrl "token_url" token_url
  checkUrl "redirect_url" redirect_url
  .ok ⟨client_id, client_secret, authorization_url, token_url, scope_separator,
       redirect_url, available_scopes, required_scopes⟩

/-- String-valued entry of the available_scopes mapping. -/
def scopeEntry : String × Json → Except ApiFailure (String × String)
  | (k, .str s) => .ok (k, s)
  | (_, _) => .error (.decode "available_scopes")

/-- OAuth2Config parse-from-wire: every field required, the three URLs
validated, available_scopes a string-to-string object, required_scopes a
string array. -/
def OAuth2Config.parse (j : Json) : Except ApiFailure OAuth2Config := do
  let client_id ← reqStr j "client_id"
  let client_secret ← reqStr j "client_secret"
  let authorization_url ← reqUrl j "authorization_url"
  let token_url ← reqUrl j "token_url"
  let scope_separator ← reqStr j "scope_separator"
  let redirect_url ← reqUrl j "redirect_url"
  let available_scopes ←
    match getField j "available_scopes" with
    | some (.obj fs) => fs.mapM scopeEntry
    | _ => .error (.decode "available_scopes")
  let required_scopes ←
    match getField j "required_scopes" with
    | some (.arr xs) => xs.mapM (strElem "required_scopes")
    | _ => .error (.decode "required_scopes")
  .ok ⟨client_id, client_secret, authorization_url, token_url, scope_separator,
       redirect_url, available_scopes, required_scopes⟩

/-- CreateExtension parse-from-wire: name max 30, description max 400, enum
auth_type, URLs validated, nested oauth2_config parsed when present. -/
def CreateExtension.parse (j : Json) : Except ApiFailure CreateExtension := do
  let name ← reqStrMax j "name" 30
  let description ← reqStrMax j "description" 400
  let base_api_url ← reqUrl j "base_api_url"
  let auth_type ← reqEnum AuthType.ofWire j "auth_type"
  let is_paid ← reqBool j "is_paid"
  let documentation_url ← optUrl j "documentation_url"
  let website_url ← optUrl j "website_url"
  let oauth2_config ←
    match getField j "oauth2_config" with
    | none => .ok none
    | some .null => .ok none
    | some (.obj fs) => (OAuth2Config.parse (.obj fs)).map some
    | some _ => .error (.decode "oauth2_config")
  .ok ⟨name, description, base_api_url, auth_type, is_paid,
       documentation_url, website_url, oauth2_config⟩

/-! Write operations. Each sends one JSON-bodied request built from the
serialized entity and parses the response; the issued request is returned
alongside so that statements about the wire body can be made. -/

/-- An outgoing request with a JSON body. -/
structure JsonRequest where
  method : String
  url : String
  body : Json

/-- MessageResponse model. -/
structure MessageResponse where
  messageid : String
  url : String
deriving DecidableEq

/-- MessageResponse(**json). -/
def MessageResponse.parse (j : Json) : Except ApiFailure MessageResponse := do
  let messageid ← reqUUID j "messageid"
  let url ← reqUrl j "url"
  .ok ⟨messageid, url⟩

/-- APIClient.send_message: POST /messages with the serialized entity; on a
2xx response the body parse MessageResponse(**response.json()) raises
NameError, MessageResponse being absent from the api.py imports. -/
def send_message (base_url : String) (m : CreateMessage)
    (transport : JsonRequest → Response) :
    Except ApiFailure MessageResponse × List JsonRequest :=
  let req : JsonRequest := ⟨"POST", base_url ++ "/messages", .obj m.toWire⟩
  let resp := transport req
  (do raiseForStatus resp
      (Except.error (.nameError "MessageResponse") :
        Except ApiFailure MessageResponse), [req])

/-- APIClient.create_contact: POST /contacts with the serialized entity; on
a 2xx response Contact(**response.json()) raises NameError, Contact being
absent from the api.py imports. -/
def create_contact (base_url : String) (c : CreateContact)
    (transport : JsonRequest → Response) :
    Except ApiFailure Contact × List JsonRequest :=
  let req : JsonRequest := ⟨"POST", base_url ++ "/contacts", .obj c.toWire⟩
  let resp := transport req
  (do raiseForStatus resp
      (Except.error (.nameError "Contact") : Except ApiFailure Contact), [req])

/-- APIClient.create_verification: POST /verifications with the serialized
entity; on a 2xx response RequestVerification(**response.json()) raises
NameError, RequestVerification being absent from the api.py imports. -/
def create_verification (base_url : String) (v : RequestVerification)
    (transport : JsonRequest → Response) :
    Except ApiFailure RequestVerification × List JsonRequest :=
  let req : JsonRequest := ⟨"POST", base_url ++ "/verifications", .obj v.toWire⟩
  let resp := transport req
  (do raiseForStatus resp
      (Except.error (.nameError "RequestVerification") :
        Except ApiFailure RequestVerification), [req])

/-! Theorems settling the claims, after two reduction lemmas for the
Except monad used throughout the proofs. -/

/-- Bind on a success value reduces to the continuation. -/
theorem ok_bind {ε α β : Type} (a : α) (f : α → Except ε β) :
    (Except.ok a >>= f : Except ε β) = f a := rfl

/-- Bind on an error short-circuits. -/
theorem error_bind {ε α β : Type} (e : ε) (f : α → Except ε β) :
    (Except.error e >>= f : Except ε β) = .error e := rfl

/-- A successful sequence after a unit-valued check means the check passed
and the continuation produced the value. -/
theorem seq_unit_ok {ε β : Type} {c : Except ε Unit} {f : Unit → Except ε β} {b : β}
    (h : (c >>= f) = .ok b) : c = .ok () ∧ f () = .ok b := by
  cases c with
  | error e => rw [error_bind] at h; cases h
  | ok u => cases u; rw [ok_bind] at h; exact ⟨rfl, h⟩

/-- On any non-2xx response, raise_for_status produces the APIError. -/
theorem raiseForStatus_non2xx (resp : Response)
    (h : ¬ (200 ≤ resp.status ∧ resp.status ≤ 299)) :
    raiseForStatus resp = .error (.api ⟨resp.status, errorDetail resp⟩) := by
  simp [raiseForStatus, h]

/-- C1: every modeled API operation, on a response whose status is not 2xx,
fails with an APIError carrying the HTTP status code and the detail string
of the response body; the detail is the exact server string when the body
carries one and the generic fallback when it has no detail field. The
operations that issue a request first fail this way for whatever non-2xx
response the transport returns to the request they sent. -/
theorem api_non2xx_api_error :
    (∀ resp : Response, ¬ (200 ≤ resp.status ∧ resp.status ≤ 299) →
      get_account resp = .error (.api ⟨resp.status, errorDetail resp⟩)
      ∧ list_extensions resp = .error (.api ⟨resp.status, errorDetail resp⟩)
      ∧ list_actions resp = .error (.api ⟨resp.status, errorDetail resp⟩)
      ∧ list_messages resp = .error (.api ⟨resp.status, errorDetail resp⟩)
      ∧ list_groups resp = .error (.api ⟨resp.status, errorDetail resp⟩)
      ∧ list_sender_names resp = .error (.api ⟨resp.status, errorDetail resp⟩)
      ∧ list_contacts resp = .error (.api ⟨resp.status, errorDetail resp⟩))
    ∧ (∀ resp : Response,
        (∀ d, getField resp.body "detail" = some (.str d) → errorDetail resp = d)
        ∧ (getField resp.body "detail" = none →
            errorDetail resp = genericDetail resp.status))
    ∧ (∀ (fs : String → Bool) (base eid path : String)
        (transport : Request → Response) (st : Nat) (b : Json),
        fs path = true →
        transport ⟨"PATCH", base ++ "/extensions/" ++ eid ++ "/logo",
          [⟨"logo", "logo.png", "image/png"⟩]⟩ = ⟨st, b⟩ →
        ¬ (200 ≤ st ∧ st ≤ 299) →
        (upload_logo fs base eid path transport).1
          = .error (.api ⟨st, errorDetail ⟨st, b⟩⟩))
    ∧ (∀ (base : String) (m : CreateMessage) (transport : JsonRequest → Response)
        (st : Nat) (b : Json),
        transport ⟨"POST", base ++ "/messages", .obj m.toWire⟩ = ⟨st, b⟩ →
        ¬ (200 ≤ st ∧ st ≤ 299) →
        (send_message base m transport).1
          = .error (.api ⟨st, errorDetail ⟨st, b⟩⟩))
    ∧ (∀ (base : String) (c : CreateContact) (transport : JsonRequest → Response)
        (st : Nat) (b : Json),
        transport ⟨"POST", base ++ "/contacts", .obj c.toWire⟩ = ⟨st, b⟩ →
        ¬ (200 ≤ st ∧ st ≤ 299) →
        (create_contact base c transport).1
          = .error (.api ⟨st, errorDetail ⟨st, b⟩⟩))
    ∧ (∀ (base : String) (v : RequestVerification)
        (transport : JsonRequest → Response) (st : Nat) (b : Json),
        transport ⟨"POST", base ++ "/verifications", .obj v.toWire⟩ = ⟨st, b⟩ →
        ¬ (200 ≤ st ∧ st ≤ 299) →
        (create_verification base v transport).1
          = .error (.api ⟨st, errorDetail ⟨st, b⟩⟩)) := by
  refine ⟨?_, ?_, ?_, ?_, ?_, ?_⟩
  · intro resp h
    refine ⟨?_, ?_, ?_, ?_, ?_, ?_, ?_⟩ <;>
      simp [get_account, list_extensions, list_actions, list_messages,
        list_groups, list_sender_names, list_contacts,
        raiseForStatus_non2xx resp h, error_bind]
  · intro resp
    constructor
    · intro d hd
      simp [errorDetail, hd]
    · intro h0
      simp [errorDetail, h0]
  · intro fs base eid path transport st b hfs htr h
    simp [upload_logo, hfs, htr, raiseForStatus_non2xx ⟨st, b⟩ h, error_bind]
  · intro base m transport st b htr h
    simp [send_message, htr, raiseForStatus_non2xx ⟨st, b⟩ h, error_bind]
  · intro base c transport st b htr h
    simp [create_contact, htr, raiseForStatus_non2xx ⟨st, b⟩ h, error_bind]
  · intro base v transport st b htr h
    simp [create_verification, htr, raiseForStatus_non2xx ⟨st, b⟩ h, error_bind]

/-- C1 witness: the mocked 401 response with the exact server detail body,
through get_account, list_contacts and a send_message transport. -/
theorem api_non2xx_api_error_witness :
    get_account ⟨401,
        .obj [("detail", .str "Authentication credentials not provided.")]⟩
      = .error (.api ⟨401, "Authentication credentials not provided."⟩)
    ∧ list_contacts ⟨401,
        .obj [("detail", .str "Authentication credentials not provided.")]⟩
      = .error (.api ⟨401, "Authentication credentials not provided."⟩)
    ∧ (send_message "https://api.test.nimbasms.com/v1"
        ⟨"SENDER", ["623000000"], "Hi"⟩
        (fun _ => ⟨401,
          .obj [("detail", .str "Authentication credentials not provided.")]⟩)).1
      = .error (.api ⟨401, "Authentication credentials not provided."⟩) :=
  ⟨(api_non2xx_api_error.1 ⟨401,
      .obj [("detail", .str "Authentication credentials not provided.")]⟩
      (by decide)).1,
   (api_non2xx_api_error.1 ⟨401,
      .obj [("detail", .str "Authentication credentials not provided.")]⟩
      (by decide)).2.2.2.2.2.2,
   api_non2xx_api_error.2.2.2.1 "https://api.test.nimbasms.com/v1"
     ⟨"SENDER", ["623000000"], "Hi"⟩
     (fun _ => ⟨401,
       .obj [("detail", .str "Authentication credentials not provided.")]⟩)
     401 (.obj [("detail", .str "Authentication credentials not provided.")])
     rfl (by decide)⟩

/-- C8 counterexample: the claim that no Account with a negative balance can
be constructed is false: parsing a body with balance -5 succeeds, and
get_account on a 200 response returns that Account. -/
theorem account_negative_balance_counterexample :
    Account.parse (.obj [("sid", .str "test123"), ("balance", .num (-5))])
      = .ok ⟨"test123", -5, none⟩
    ∧ get_account ⟨200, .obj [("sid", .str "test123"), ("balance", .num (-5))]⟩
      = .ok ⟨"test123", -5, none⟩
    ∧ (-5 : Int) < 0 :=
  ⟨rfl, rfl, by decide⟩

/-- C8 amended: the Account model validates no bound on balance at
construction; for every integer balance, negative ones included, parsing
succeeds and get_account on a 200 response returns that balance unchanged. -/
theorem account_parse_any_balance (s : String) (b : Int) :
    Account.parse (.obj [("sid", .str s), ("balance", .num b)]) = .ok ⟨s, b, none⟩
    ∧ get_account ⟨200, .obj [("sid", .str s), ("balance", .num b)]⟩
      = .ok ⟨s, b, none⟩ :=
  ⟨rfl, rfl⟩

/-- C2: for every recipient number within its own length bound, the optional
numeric fields of a verification request are validated at exact boundaries:
code_length 4 and 8 succeed while 3 and 9 fail with a ValidationError on
code_length; expiry_time 5 and 30 succeed while 4 and 31 fail; attempts 3
and 10 succeed while 2 and 11 fail; and with all three fields absent,
construction succeeds with no range check. -/
theorem request_verification_boundaries («to» : String) (h : «to».length ≤ 128) :
    (mkRequestVerification none «to» none none none none none (some 4) none).isOk
    ∧ (mkRequestVerification none «to» none none none none none (some 8) none).isOk
    ∧ mkRequestVerification none «to» none none none none none (some 3) none
        = .error ⟨"code_length", "out_of_range"⟩
    ∧ mkRequestVerification none «to» none none none none none (some 9) none
        = .error ⟨"code_length", "out_of_range"⟩
    ∧ (mkRequestVerification none «to» none none (some 5) none none none none).isOk
    ∧ (mkRequestVerification none «to» none none (some 30) none none none none).isOk
    ∧ mkRequestVerification none «to» none none (some 4) none none none none
        = .error ⟨"expiry_time", "out_of_range"⟩
    ∧ mkRequestVerification none «to» none none (some 31) none none none none
        = .error ⟨"expiry_time", "out_of_range"⟩
    ∧ (mkRequestVerification none «to» none none none (some 3) none none none).isOk
    ∧ (mkRequestVerification none «to» none none none (some 10) none none none).isOk
    ∧ mkRequestVerification none «to» none none none (some 2) none none none
        = .error ⟨"attempts", "out_of_range"⟩
    ∧ mkRequestVerification none «to» none none none (some 11) none none none
        = .error ⟨"attempts", "out_of_range"⟩
    ∧ (mkRequestVerification none «to» none none none none none none none).isOk := by
  have h1 : isUUIDString defaultVerificationId = true := rfl
  have h2 : checkLen "to" 128 «to» = .ok () := by simp [checkLen, h]
  refine ⟨?_, ?_, ?_, ?_, ?_, ?_, ?_, ?_, ?_, ?_, ?_, ?_, ?_⟩ <;>
    simp [mkRequestVerification, Option.getD, checkUUID, h1, h2, checkMaxLen,
      checkRange, checkOptUrl, Except.isOk]
  all_goals rfl

/-- C2 witness at a concrete recipient number. -/
theorem request_verification_boundaries_witness :
    ("623000000".length ≤ 128)
    ∧ (mkRequestVerification none "623000000" none none none none none (some 4) none).isOk
    ∧ mkRequestVerification none "623000000" none none none none none (some 9) none
        = .error ⟨"code_length", "out_of_range"⟩ :=
  ⟨by decide,
   (request_verification_boundaries "623000000" (by decide)).1,
   (request_verification_boundaries "623000000" (by decide)).2.2.2.1⟩

/-- C5: enum parsing matches the wire string case-sensitively against the
defined wire-value set of each enum, decoding succeeds exactly on that set,
decoding the wire value of every member recovers that member, and parsing a
message whose status lies outside the set fails with a decode error on the
status field instead of falling back to a default. -/
theorem enum_wire_values_case_sensitive :
    (∀ s : String, (MessageStatus.ofWire s).isSome ↔
      s = "pending" ∨ s = "sent" ∨ s = "failure" ∨ s = "not_available"
        ∨ s = "received" ∨ s = "tosend")
    ∧ (∀ v : MessageStatus, MessageStatus.ofWire v.toWire = some v)
    ∧ (∀ s : String, (VerificationStatus.ofWire s).isSome ↔
      s = "pending" ∨ s = "sent" ∨ s = "expired" ∨ s = "failure"
        ∨ s = "received" ∨ s = "too_many_attempts" ∨ s = "approved")
    ∧ (∀ s : String, (AuthType.ofWire s).isSome ↔
      s = "none" ∨ s = "api_key" ∨ s = "oauth2")
    ∧ (∀ s : String, (HTTPMethod.ofWire s).isSome ↔
      s = "GET" ∨ s = "POST" ∨ s = "PUT" ∨ s = "PATCH" ∨ s = "DELETE")
    ∧ (∀ s : String, s ≠ "pending" → s ≠ "sent" → s ≠ "failure" →
        s ≠ "not_available" → s ≠ "received" → s ≠ "tosend" →
        Message.parse (.obj [("messageid", .str "00000000-0000-0000-0000-000000000002"),
          ("sender_name", .str "SENDER"), ("message", .str "Hello"),
          ("status", .str s), ("sent_at", .num 0)]) = .error (.decode "status")) := by
  refine ⟨?_, ?_, ?_, ?_, ?_, ?_⟩
  · intro s; unfold MessageStatus.ofWire; split <;> simp_all
  · intro v; cases v <;> rfl
  · intro s; unfold VerificationStatus.ofWire; split <;> simp_all
  · intro s; unfold AuthType.ofWire; split <;> simp_all
  · intro s; unfold HTTPMethod.ofWire; split <;> simp_all
  · intro s h1 h2 h3 h4 h5 h6
    have hof : MessageStatus.ofWire s = none := by
      unfold MessageStatus.ofWire; split <;> simp_all
    have hm : reqUUID (Json.obj [("messageid", .str "00000000-0000-0000-0000-000000000002"),
        ("sender_name", .str "SENDER"), ("message", .str "Hello"),
        ("status", .str s), ("sent_at", .num 0)]) "messageid"
        = .ok "00000000-0000-0000-0000-000000000002" := rfl
    have hst : reqStr (Json.obj [("messageid", .str "00000000-0000-0000-0000-000000000002"),
        ("sender_name", .str "SENDER"), ("message", .str "Hello"),
        ("status", .str s), ("sent_at", .num 0)]) "status" = .ok s := rfl
    simp [Message.parse, reqEnum, hm, hst, hof, reqStrMax, reqStr, reqField,
      getField, List.lookup, ok_bind, error_bind]
    rfl

/-- C3: the claim fails on the code as staged: api.py never imports the
entity classes these four list operations construct, so a 2xx bare array of
one contact makes list_contacts raise NameError at Contact(**contact)
instead of returning a parsed Contact, and a non-empty results list does the
same for list_messages, list_groups and list_sender_names. -/
theorem list_entities_name_error :
    list_contacts ⟨200, .arr [Json.obj [("contact_id",
        .str "00000000-0000-0000-0000-000000000004"),
      ("name", .str "Contact 1"), ("numero", .str "123456789"),
      ("created_at", .num 1234567890), ("groups", .arr [])]]⟩
      = .error (.nameError "Contact")
    ∧ list_messages ⟨200, .obj [("results", .arr [Json.obj []])]⟩
      = .error (.nameError "Message")
    ∧ list_groups ⟨200, .obj [("results", .arr [Json.obj []])]⟩
      = .error (.nameError "Groupe")
    ∧ list_sender_names ⟨200, .obj [("results", .arr [Json.obj []])]⟩
      = .error (.nameError "SenderName") :=
  ⟨rfl, rfl, rfl, rfl⟩

/-- C5 witness: a bogus status and a wrongly cased PENDING both fail to parse. -/
theorem enum_wire_values_witness :
    Message.parse (.obj [("messageid", .str "00000000-0000-0000-0000-000000000002"),
      ("sender_name", .str "SENDER"), ("message", .str "Hello"),
      ("status", .str "bogus"), ("sent_at", .num 0)]) = .error (.decode "status")
    ∧ Message.parse (.obj [("messageid", .str "00000000-0000-0000-0000-000000000002"),
      ("sender_name", .str "SENDER"), ("message", .str "Hello"),
      ("status", .str "PENDING"), ("sent_at", .num 0)]) = .error (.decode "status") :=
  ⟨enum_wire_values_case_sensitive.2.2.2.2.2 "bogus" (by decide) (by decide)
      (by decide) (by decide) (by decide) (by decide),
   enum_wire_values_case_sensitive.2.2.2.2.2 "PENDING" (by decide) (by decide)
      (by decide) (by decide) (by decide) (by decide)⟩

/-- C4: for every filesystem state, base URL, extension id, transport and
local path that does not exist, upload_logo fails with the file-not-found
error and issues zero HTTP requests. -/
theorem upload_logo_missing_file (fs : String → Bool) (base eid path : String)
    (transport : Request → Response) (h : fs path = false) :
    upload_logo fs base eid path transport
      = (.error (.fileNotFound ("Logo file not found: " ++ path)), []) := by
  simp [upload_logo, h]

/-- C4 witness: a concrete missing path yields the error and an empty
request log. -/
theorem upload_logo_missing_file_witness :
    upload_logo (fun _ => false) "https://api.test.nimbasms.com/v1"
        "00000000-0000-0000-0000-000000000000" "nonexistent_logo.png"
        (fun _ => ⟨200, .null⟩)
      = (.error (.fileNotFound "Logo file not found: nonexistent_logo.png"), []) :=
  upload_logo_missing_file (fun _ => false) "https://api.test.nimbasms.com/v1"
    "00000000-0000-0000-0000-000000000000" "nonexistent_logo.png"
    (fun _ => ⟨200, .null⟩) rfl

/-- C9: constructing a CreateMessage succeeds exactly when sender_name is at
most 11 characters, the recipient list has between 1 and 10 entries and the
message is at most 665 characters; in particular every input with an empty
recipient list or with 11 or more recipients fails validation. -/
theorem create_message_recipient_bounds :
    (∀ (sn : String) («to» : List String) (msg : String),
        (mkCreateMessage sn «to» msg).isOk = true ↔
          sn.length ≤ 11 ∧ 1 ≤ «to».length ∧ «to».length ≤ 10 ∧ msg.length ≤ 665)
    ∧ (∀ (sn : String) («to» : List String) (msg : String),
        «to».length = 0 ∨ 11 ≤ «to».length →
        (mkCreateMessage sn «to» msg).isOk = false) := by
  have hiff : ∀ (sn : String) («to» : List String) (msg : String),
      (mkCreateMessage sn «to» msg).isOk = true ↔
        sn.length ≤ 11 ∧ 1 ≤ «to».length ∧ «to».length ≤ 10 ∧ msg.length ≤ 665 := by
    intro sn «to» msg
    simp only [mkCreateMessage, checkLen, checkListLen]
    split_ifs <;> simp [Except.isOk, ok_bind, error_bind, Except.toBool] <;> omega
  refine ⟨hiff, ?_⟩
  intro sn «to» msg hlen
  rw [Bool.eq_false_iff]
  intro htrue
  have := (hiff sn «to» msg).mp htrue
  omega

/-- C9 witness: an empty recipient list and an 11-entry list both fail. -/
theorem create_message_recipient_bounds_witness :
    (mkCreateMessage "SENDER" [] "Hello").isOk = false
    ∧ (mkCreateMessage "SENDER"
        ["1", "2", "3", "4", "5", "6", "7", "8", "9", "10", "11"] "Hello").isOk
      = false :=
  ⟨create_message_recipient_bounds.2 "SENDER" [] "Hello" (by decide),
   create_message_recipient_bounds.2 "SENDER"
     ["1", "2", "3", "4", "5", "6", "7", "8", "9", "10", "11"] "Hello"
     (by simp)⟩

/-- C10: every verification request constructed without a verificationid
carries the fixed placeholder UUID, and because that default is non-absent,
the serialized create-verification request body always contains a
verificationid field holding the placeholder. -/
theorem create_verification_default_id
    («to» : String) (message sender_name : Option String)
    (expiry_time attempts : Option Int) (code : Option String)
    (code_length : Option Int) (url : Option String) (v : RequestVerification)
    (h : mkRequestVerification none «to» message sender_name expiry_time attempts
          code code_length url = .ok v) :
    v.verificationid = defaultVerificationId
    ∧ (v.toWire).lookup "verificationid" = some (.str defaultVerificationId)
    ∧ (∀ (base : String) (transport : JsonRequest → Response),
        (create_verification base v transport).2.map
            (fun r => getField r.body "verificationid")
          = [some (.str defaultVerificationId)]) := by
  unfold mkRequestVerification at h
  replace h := (seq_unit_ok h).2
  replace h := (seq_unit_ok h).2
  replace h := (seq_unit_ok h).2
  replace h := (seq_unit_ok h).2
  replace h := (seq_unit_ok h).2
  replace h := (seq_unit_ok h).2
  replace h := (seq_unit_ok h).2
  replace h := (seq_unit_ok h).2
  cases h
  exact ⟨rfl, rfl, fun base transport => rfl⟩

/-! Lookup lemmas over serialized mappings built from fixed entries and
optEntry blocks. -/

/-- Lookup finds a matching head entry. -/
theorem lookup_cons_eq {β : Type} (k : String) (val : β) (rest : List (String × β)) :
    ((k, val) :: rest).lookup k = some val := by
  simp [List.lookup]

/-- Lookup skips a head entry with a different key. -/
theorem lookup_cons_ne {β : Type} {k k2 : String} (h : (k2 == k) = false)
    (val : β) (rest : List (String × β)) :
    ((k, val) :: rest).lookup k2 = rest.lookup k2 := by
  simp [List.lookup, h]

/-- Lookup skips an optEntry block with a different key. -/
theorem lookup_optEntry_ne {k k2 : String} (h : (k2 == k) = false)
    (o : Option Json) (rest : List (String × Json)) :
    (optEntry k o ++ rest).lookup k2 = rest.lookup k2 := by
  cases o <;> simp [optEntry, List.lookup, h]

/-- Lookup of its own key in an optEntry block followed by entries not
carrying that key returns exactly the optional value. -/
theorem lookup_optEntry_here {k : String} (o : Option Json)
    (rest : List (String × Json)) (h : rest.lookup k = none) :
    (optEntry k o ++ rest).lookup k = o := by
  cases o <;> simp [optEntry, List.lookup, h]

/-- Lookup of its own key in a final optEntry block. -/
theorem lookup_optEntry_self (k : String) (o : Option Json) :
    (optEntry k o).lookup k = o := by
  cases o <;> simp [optEntry, List.lookup]

/-- Lookup of a different key in a final optEntry block. -/
theorem lookup_optEntry_none {k k2 : String} (h : (k2 == k) = false)
    (o : Option Json) : (optEntry k o).lookup k2 = none := by
  cases o <;> simp [optEntry, List.lookup, h]

/-- C6: serialization of each request entity omits every absent optional
field and emits every supplied field with its value: the lookup of each
optional key equals the image of the optional field (none exactly when
absent), and each required key is always present with the field value. -/
theorem serialize_omits_absent_fields :
    (∀ e : CreateExtension,
      (e.toWire).lookup "name" = some (.str e.name)
      ∧ (e.toWire).lookup "description" = some (.str e.description)
      ∧ (e.toWire).lookup "base_api_url" = some (.str e.base_api_url)
      ∧ (e.toWire).lookup "auth_type" = some (.str e.auth_type.toWire)
      ∧ (e.toWire).lookup "is_paid" = some (.bool e.is_paid)
      ∧ (e.toWire).lookup "documentation_url" = e.documentation_url.map Json.str
      ∧ (e.toWire).lookup "website_url" = e.website_url.map Json.str
      ∧ (e.toWire).lookup "oauth2_config"
          = e.oauth2_config.map (fun c => Json.obj c.toWire))
    ∧ (∀ m : CreateMessage,
      (m.toWire).lookup "sender_name" = some (.str m.sender_name)
      ∧ (m.toWire).lookup "to" = some (.arr (m.«to».map Json.str))
      ∧ (m.toWire).lookup "message" = some (.str m.message))
    ∧ (∀ c : CreateContact,
      (c.toWire).lookup "name" = c.name.map Json.str
      ∧ (c.toWire).lookup "numero" = some (.str c.numero)
      ∧ (c.toWire).lookup "groups" = some (.arr (c.groups.map Json.str)))
    ∧ (∀ v : RequestVerification,
      (v.toWire).lookup "verificationid" = some (.str v.verificationid)
      ∧ (v.toWire).lookup "to" = some (.str v.«to»)
      ∧ (v.toWire).lookup "message" = v.message.map Json.str
      ∧ (v.toWire).lookup "sender_name" = v.sender_name.map Json.str
      ∧ (v.toWire).lookup "expiry_time" = v.expiry_time.map Json.num
      ∧ (v.toWire).lookup "attempts" = v.attempts.map Json.num
      ∧ (v.toWire).lookup "code" = v.code.map Json.str
      ∧ (v.toWire).lookup "code_length" = v.code_length.map Json.num
      ∧ (v.toWire).lookup "url" = v.url.map Json.str)
    ∧ (∀ c : CheckVerification,
      (c.toWire).lookup "code" = some (.num c.code)
      ∧ (c.toWire).lookup "status"
          = c.status.map (fun s => Json.str s.toWire)) := by
  refine ⟨?_, ?_, ?_, ?_, ?_⟩ <;> intro x <;>
    simp [CreateExtension.toWire, CreateMessage.toWire, CreateContact.toWire,
      RequestVerification.toWire, CheckVerification.toWire,
      lookup_cons_eq, lookup_cons_ne, lookup_optEntry_ne, lookup_optEntry_here,
      lookup_optEntry_self, lookup_optEntry_none]

/-! Inversion lemmas for the construct-from-input checks, and evaluation
lemmas for the parse steps, used for the round-trip law. -/

/-- A passed length check bounds the string. -/
theorem checkLen_ok_le {f : String} {n : Nat} {s : String}
    (h : checkLen f n s = .ok ()) : s.length ≤ n := by
  by_contra hc
  simp [checkLen, hc] at h

/-- A passed optional length check bounds the present string. -/
theorem checkMaxLen_ok_le {f : String} {n : Nat} {o : Option String}
    (h : checkMaxLen f n o = .ok ()) : ∀ s, o = some s → s.length ≤ n := by
  intro s hs
  subst hs
  exact checkLen_ok_le h

/-- A passed range check bounds the present integer. -/
theorem checkRange_ok_mem {f : String} {lo hi : Int} {o : Option Int}
    (h : checkRange f lo hi o = .ok ()) : ∀ n, o = some n → lo ≤ n ∧ n ≤ hi := by
  intro n hn
  subst hn
  by_contra hc
  simp [checkRange, hc] at h

/-- A passed UUID check certifies the shape. -/
theorem checkUUID_ok_true {f : String} {s : String}
    (h : checkUUID f s = .ok ()) : isUUIDString s = true := by
  by_contra hc
  simp [checkUUID, hc] at h

/-- A passed URL check certifies the scheme. -/
theorem checkUrl_ok_true {f : String} {s : String}
    (h : checkUrl f s = .ok ()) : isHttpUrl s = true := by
  by_contra hc
  simp [checkUrl, hc] at h

/-- A passed optional URL check certifies the present string. -/
theorem checkOptUrl_ok_true {f : String} {o : Option String}
    (h : checkOptUrl f o = .ok ()) : ∀ s, o = some s → isHttpUrl s = true := by
  intro s hs
  subst hs
  exact checkUrl_ok_true h

/-- A passed list length check bounds the list. -/
theorem checkListLen_ok_mem {f : String} {lo hi : Nat} {xs : List String}
    (h : checkListLen f lo hi xs = .ok ()) : lo ≤ xs.length ∧ xs.length ≤ hi := by
  unfold checkListLen at h
  split at h
  next => cases h
  next h1 =>
    split at h
    next => cases h
    next h2 => omega

/-- Mapping string extraction over injected strings recovers the list. -/
theorem mapM_strElem (k : String) (gs : List String) :
    (gs.map Json.str).mapM (strElem k) = .ok gs := by
  induction gs with
  | nil => rw [List.map_nil, List.mapM_nil]; rfl
  | cons g gs ih =>
      rw [List.map_cons, List.mapM_cons, ih]
      simp [strElem, ok_bind]


/-- Loop form of the previous lemma, as used after unfolding List.mapM. -/
theorem mapM_strElem_loop (k : String) (gs : List String) :
    List.mapM.loop (strElem k) (gs.map Json.str) [] = .ok gs :=
  mapM_strElem k gs

/-- Optional bounded string parse over a field known to hold the injected
optional string. -/
theorem optStrMax_of_lookup {j : Json} {k : String} {o : Option String} {n : Nat}
    (hl : getField j k = o.map Json.str) (hlen : ∀ s, o = some s → s.length ≤ n) :
    optStrMax j k n = .ok o := by
  cases o with
  | none => simp [optStrMax, optStr, hl, ok_bind]
  | some s => simp [optStrMax, optStr, hl, hlen s rfl, ok_bind]

/-- Optional plain string parse over a field known to hold the injected
optional string. -/
theorem optStr_of_lookup {j : Json} {k : String} {o : Option String}
    (hl : getField j k = o.map Json.str) : optStr j k = .ok o := by
  cases o with
  | none => simp [optStr, hl]
  | some s => simp [optStr, hl]

/-- Optional ranged integer parse over a field known to hold the injected
optional integer. -/
theorem optIntRange_of_lookup {j : Json} {k : String} {o : Option Int} {lo hi : Int}
    (hl : getField j k = o.map Json.num)
    (hmem : ∀ n, o = some n → lo ≤ n ∧ n ≤ hi) :
    optIntRange j k lo hi = .ok o := by
  cases o with
  | none => simp [optIntRange, hl]
  | some n => simp [optIntRange, hl, (hmem n rfl).1, (hmem n rfl).2]

/-- Optional URL parse over a field known to hold the injected optional
string with a valid scheme. -/
theorem optUrl_of_lookup {j : Json} {k : String} {o : Option String}
    (hl : getField j k = o.map Json.str)
    (hurl : ∀ s, o = some s → isHttpUrl s = true) :
    optUrl j k = .ok o := by
  cases o with
  | none => simp [optUrl, optStr, hl, ok_bind]
  | some s => simp [optUrl, optStr, hl, hurl s rfl, ok_bind]

/-- Decoding the wire value of a VerificationStatus recovers the member. -/
theorem vs_ofWire_toWire (v : VerificationStatus) :
    VerificationStatus.ofWire v.toWire = some v := by
  cases v <;> rfl

/-- C10 witness: constructing with only a recipient yields the placeholder
verificationid. -/
theorem create_verification_default_id_witness :
    mkRequestVerification none "623000000" none none none none none none none
      = .ok ⟨defaultVerificationId, "623000000", none, none, none, none, none,
             none, none⟩
    ∧ (⟨defaultVerificationId, "623000000", none, none, none, none, none,
        none, none⟩ : RequestVerification).verificationid
        = defaultVerificationId :=
  ⟨rfl, (create_verification_default_id "623000000" none none none none none
          none none _ rfl).1⟩

/-- Auxiliary round-trip lemmas, one per request entity. -/
theorem cc_roundtrip_aux (name : Option String) (numero : String) (groups : List String)
    (c : CreateContact) (h : mkCreateContact name numero groups = .ok c) :
    CreateContact.parse (.obj c.toWire) = .ok c := by
  unfold mkCreateContact at h
  obtain ⟨h1, h⟩ := seq_unit_ok h
  obtain ⟨h2, h⟩ := seq_unit_ok h
  cases h
  have hnum := checkLen_ok_le h2
  have hname := checkMaxLen_ok_le h1
  have hlname : getField (Json.obj (CreateContact.toWire ⟨name, numero, groups⟩)) "name"
      = name.map Json.str := by
    simp [getField, CreateContact.toWire, lookup_optEntry_here, List.lookup]
  have hlnum : getField (Json.obj (CreateContact.toWire ⟨name, numero, groups⟩)) "numero"
      = some (.str numero) := by
    simp [getField, CreateContact.toWire, lookup_optEntry_ne, List.lookup]
  have hlg : getField (Json.obj (CreateContact.toWire ⟨name, numero, groups⟩)) "groups"
      = some (.arr (groups.map Json.str)) := by
    simp [getField, CreateContact.toWire, lookup_optEntry_ne, List.lookup]
  simp [CreateContact.parse, optStrMax_of_lookup hlname hname, reqStrMax, reqStr,
    reqField, hlnum, hnum, listFieldD, hlg, mapM_strElem, mapM_strElem_loop, ok_bind]

theorem cm_roundtrip_aux (sn : String) (tos : List String) (msg : String)
    (m : CreateMessage) (h : mkCreateMessage sn tos msg = .ok m) :
    CreateMessage.parse (.obj m.toWire) = .ok m := by
  unfold mkCreateMessage at h
  obtain ⟨h1, h⟩ := seq_unit_ok h
  obtain ⟨h2, h⟩ := seq_unit_ok h
  obtain ⟨h3, h⟩ := seq_unit_ok h
  cases h
  have hsn := checkLen_ok_le h1
  have hto := checkListLen_ok_mem h2
  have hmsg := checkLen_ok_le h3
  simp [CreateMessage.parse, CreateMessage.toWire, reqStrMax, reqStr, reqField,
    getField, List.lookup, reqStrListLen, mapM_strElem, mapM_strElem_loop,
    hsn, hmsg, hto.1, hto.2, ok_bind]

theorem cv_roundtrip_aux (code : Int) (st : Option VerificationStatus)
    (c : CheckVerification) (h : mkCheckVerification code st = .ok c) :
    CheckVerification.parse (.obj c.toWire) = .ok c := by
  unfold mkCheckVerification at h
  split at h
  next hrange =>
    cases h
    have hl1 : getField (Json.obj (CheckVerification.toWire ⟨code, st⟩)) "code"
        = some (.num code) := by
      simp [getField, CheckVerification.toWire, List.lookup]
    have hl2 : getField (Json.obj (CheckVerification.toWire ⟨code, st⟩)) "status"
        = st.map (fun s => Json.str s.toWire) := by
      simp [getField, CheckVerification.toWire, lookup_cons_ne, lookup_optEntry_self]
    cases st with
    | none =>
        simp [CheckVerification.parse, reqInt, reqField, hl1, hrange.1, hrange.2,
          hl2, ok_bind]
    | some s =>
        simp [CheckVerification.parse, reqInt, reqField, hl1, hrange.1, hrange.2,
          hl2, vs_ofWire_toWire, ok_bind]
  next => cases h

theorem rv_roundtrip_aux (vid : Option String) (t : String) (msg sn : Option String)
    (et a : Option Int) (code : Option String) (cl : Option Int)
    (url : Option String) (v : RequestVerification)
    (h : mkRequestVerification vid t msg sn et a code cl url = .ok v) :
    RequestVerification.parse (.obj v.toWire) = .ok v := by
  unfold mkRequestVerification at h
  obtain ⟨hu, h⟩ := seq_unit_ok h
  obtain ⟨ht, h⟩ := seq_unit_ok h
  obtain ⟨hm, h⟩ := seq_unit_ok h
  obtain ⟨hs, h⟩ := seq_unit_ok h
  obtain ⟨he, h⟩ := seq_unit_ok h
  obtain ⟨ha, h⟩ := seq_unit_ok h
  obtain ⟨hc, h⟩ := seq_unit_ok h
  obtain ⟨hl, h⟩ := seq_unit_ok h
  cases h
  have huu := checkUUID_ok_true hu
  have htl := checkLen_ok_le ht
  have hml := checkMaxLen_ok_le hm
  have hsl := checkMaxLen_ok_le hs
  have her := checkRange_ok_mem he
  have har := checkRange_ok_mem ha
  have hclr := checkRange_ok_mem hc
  have hur := checkOptUrl_ok_true hl
  have hl1 : getField (Json.obj (RequestVerification.toWire
      ⟨vid.getD defaultVerificationId, t, msg, sn, et, a, code, cl, url⟩))
      "verificationid" = some (.str (vid.getD defaultVerificationId)) := by
    simp [getField, RequestVerification.toWire, List.lookup]
  have hl2 : getField (Json.obj (RequestVerification.toWire
      ⟨vid.getD defaultVerificationId, t, msg, sn, et, a, code, cl, url⟩)) "to"
      = some (.str t) := by
    simp [getField, RequestVerification.toWire, List.lookup]
  have hlm : getField (Json.obj (RequestVerification.toWire
      ⟨vid.getD defaultVerificationId, t, msg, sn, et, a, code, cl, url⟩)) "message"
      = msg.map Json.str := by
    simp [getField, RequestVerification.toWire, lookup_cons_ne, lookup_optEntry_here,
      lookup_optEntry_ne, lookup_optEntry_self, lookup_optEntry_none]
  have hls : getField (Json.obj (RequestVerification.toWire
      ⟨vid.getD defaultVerificationId, t, msg, sn, et, a, code, cl, url⟩)) "sender_name"
      = sn.map Json.str := by
    simp [getField, RequestVerification.toWire, lookup_cons_ne, lookup_optEntry_here,
      lookup_optEntry_ne, lookup_optEntry_self, lookup_optEntry_none]
  have hle : getField (Json.obj (RequestVerification.toWire
      ⟨vid.getD defaultVerificationId, t, msg, sn, et, a, code, cl, url⟩)) "expiry_time"
      = et.map Json.num := by
    simp [getField, RequestVerification.toWire, lookup_cons_ne, lookup_optEntry_here,
      lookup_optEntry_ne, lookup_optEntry_self, lookup_optEntry_none]
  have hla : getField (Json.obj (RequestVerification.toWire
      ⟨vid.getD defaultVerificationId, t, msg, sn, et, a, code, cl, url⟩)) "attempts"
      = a.map Json.num := by
    simp [getField, RequestVerification.toWire, lookup_cons_ne, lookup_optEntry_here,
      lookup_optEntry_ne, lookup_optEntry_self, lookup_optEntry_none]
  have hlc : getField (Json.obj (RequestVerification.toWire
      ⟨vid.getD defaultVerificationId, t, msg, sn, et, a, code, cl, url⟩)) "code"
      = code.map Json.str := by
    simp [getField, RequestVerification.toWire, lookup_cons_ne, lookup_optEntry_here,
      lookup_optEntry_ne, lookup_optEntry_self, lookup_optEntry_none]
  have hlcl : getField (Json.obj (RequestVerification.toWire
      ⟨vid.getD defaultVerificationId, t, msg, sn, et, a, code, cl, url⟩)) "code_length"
      = cl.map Json.num := by
    simp [getField, RequestVerification.toWire, lookup_cons_ne, lookup_optEntry_here,
      lookup_optEntry_ne, lookup_optEntry_self, lookup_optEntry_none]
  have hlu : getField (Json.obj (RequestVerification.toWire
      ⟨vid.getD defaultVerificationId, t, msg, sn, et, a, code, cl, url⟩)) "url"
      = url.map Json.str := by
    simp [getField, RequestVerification.toWire, lookup_cons_ne, lookup_optEntry_here,
      lookup_optEntry_ne, lookup_optEntry_self, lookup_optEntry_none]
  have s1 : uuidFieldD (Json.obj (RequestVerification.toWire
      ⟨vid.getD defaultVerificationId, t, msg, sn, et, a, code, cl, url⟩))
      "verificationid" defaultVerificationId = .ok (vid.getD defaultVerificationId) := by
    simp [uuidFieldD, hl1, parseUUID, huu]
  have s2 : reqStrMax (Json.obj (RequestVerification.toWire
      ⟨vid.getD defaultVerificationId, t, msg, sn, et, a, code, cl, url⟩)) "to" 128
      = .ok t := by
    simp [reqStrMax, reqStr, reqField, hl2, htl, ok_bind]
  simp [RequestVerification.parse, s1, s2,
    optStrMax_of_lookup hlm hml, optStrMax_of_lookup hls hsl,
    optIntRange_of_lookup hle her, optIntRange_of_lookup hla har,
    optStr_of_lookup hlc, optIntRange_of_lookup hlcl hclr,
    optUrl_of_lookup hlu hur, ok_bind]

/-- Decoding the wire value of an AuthType recovers the member. -/
theorem at_ofWire_toWire (a : AuthType) : AuthType.ofWire a.toWire = some a := by
  cases a <;> rfl

/-- Mapping scope extraction over injected scope pairs recovers them. -/
theorem mapM_scopeEntry (ps : List (String × String)) :
    (ps.map (fun p => (p.1, Json.str p.2))).mapM scopeEntry = .ok ps := by
  induction ps with
  | nil => rw [List.map_nil, List.mapM_nil]; rfl
  | cons p ps ih =>
      obtain ⟨k, v⟩ := p
      rw [List.map_cons, List.mapM_cons, ih]
      simp [scopeEntry, ok_bind]

/-- Loop form of the previous lemma. -/
theorem mapM_scopeEntry_loop (ps : List (String × String)) :
    List.mapM.loop scopeEntry (ps.map (fun p => (p.1, Json.str p.2))) [] = .ok ps :=
  mapM_scopeEntry ps

/-- Round trip for a validly constructed OAuth2Config. -/
theorem oc_roundtrip_aux (ci cs au tu ss ru : String)
    (avs : List (String × String)) (rs : List String) (cfg : OAuth2Config)
    (h : mkOAuth2Config ci cs au tu ss ru avs rs = .ok cfg) :
    OAuth2Config.parse (.obj cfg.toWire) = .ok cfg := by
  unfold mkOAuth2Config at h
  obtain ⟨h1, h⟩ := seq_unit_ok h
  obtain ⟨h2, h⟩ := seq_unit_ok h
  obtain ⟨h3, h⟩ := seq_unit_ok h
  cases h
  have hau := checkUrl_ok_true h1
  have htu := checkUrl_ok_true h2
  have hru := checkUrl_ok_true h3
  simp [OAuth2Config.parse, OAuth2Config.toWire, reqStr, reqUrl, reqField,
    getField, List.lookup, hau, htu, hru, mapM_scopeEntry, mapM_scopeEntry_loop,
    mapM_strElem, mapM_strElem_loop, ok_bind]

/-- Round trip for a validly constructed CreateExtension, given that any
nested config round-trips. -/
theorem ce_roundtrip_core (n d u : String) (a : AuthType) (ip : Bool)
    (du wu : Option String) (ocfg : Option OAuth2Config) (e : CreateExtension)
    (hoc : ∀ c, ocfg = some c → OAuth2Config.parse (.obj c.toWire) = .ok c)
    (h : mkCreateExtension n d u a ip du wu ocfg = .ok e) :
    CreateExtension.parse (.obj e.toWire) = .ok e := by
  unfold mkCreateExtension at h
  obtain ⟨h1, h⟩ := seq_unit_ok h
  obtain ⟨h2, h⟩ := seq_unit_ok h
  obtain ⟨h3, h⟩ := seq_unit_ok h
  obtain ⟨h4, h⟩ := seq_unit_ok h
  obtain ⟨h5, h⟩ := seq_unit_ok h
  cases h
  have hn := checkLen_ok_le h1
  have hd := checkLen_ok_le h2
  have hu := checkUrl_ok_true h3
  have hdu := checkOptUrl_ok_true h4
  have hwu := checkOptUrl_ok_true h5
  have hl1 : getField (Json.obj (CreateExtension.toWire
      ⟨n, d, u, a, ip, du, wu, ocfg⟩)) "name" = some (.str n) := by
    simp [getField, CreateExtension.toWire, lookup_cons_eq, lookup_cons_ne,
      lookup_optEntry_ne, lookup_optEntry_here, lookup_optEntry_self,
      lookup_optEntry_none]
  have hl2 : getField (Json.obj (CreateExtension.toWire
      ⟨n, d, u, a, ip, du, wu, ocfg⟩)) "description" = some (.str d) := by
    simp [getField, CreateExtension.toWire, lookup_cons_eq, lookup_cons_ne,
      lookup_optEntry_ne, lookup_optEntry_here, lookup_optEntry_self,
      lookup_optEntry_none]
  have hl3 : getField (Json.obj (CreateExtension.toWire
      ⟨n, d, u, a, ip, du, wu, ocfg⟩)) "base_api_url" = some (.str u) := by
    simp [getField, CreateExtension.toWire, lookup_cons_eq, lookup_cons_ne,
      lookup_optEntry_ne, lookup_optEntry_here, lookup_optEntry_self,
      lookup_optEntry_none]
  have hl4 : getField (Json.obj (CreateExtension.toWire
      ⟨n, d, u, a, ip, du, wu, ocfg⟩)) "auth_type" = some (.str a.toWire) := by
    simp [getField, CreateExtension.toWire, lookup_cons_eq, lookup_cons_ne,
      lookup_optEntry_ne, lookup_optEntry_here, lookup_optEntry_self,
      lookup_optEntry_none]
  have hl5 : getField (Json.obj (CreateExtension.toWire
      ⟨n, d, u, a, ip, du, wu, ocfg⟩)) "is_paid" = some (.bool ip) := by
    simp [getField, CreateExtension.toWire, lookup_cons_eq, lookup_cons_ne,
      lookup_optEntry_ne, lookup_optEntry_here, lookup_optEntry_self,
      lookup_optEntry_none]
  have hldu : getField (Json.obj (CreateExtension.toWire
      ⟨n, d, u, a, ip, du, wu, ocfg⟩)) "documentation_url" = du.map Json.str := by
    simp [getField, CreateExtension.toWire, lookup_cons_eq, lookup_cons_ne,
      lookup_optEntry_ne, lookup_optEntry_here, lookup_optEntry_self,
      lookup_optEntry_none]
  have hlwu : getField (Json.obj (CreateExtension.toWire
      ⟨n, d, u, a, ip, du, wu, ocfg⟩)) "website_url" = wu.map Json.str := by
    simp [getField, CreateExtension.toWire, lookup_cons_eq, lookup_cons_ne,
      lookup_optEntry_ne, lookup_optEntry_here, lookup_optEntry_self,
      lookup_optEntry_none]
  have hloc : getField (Json.obj (CreateExtension.toWire
      ⟨n, d, u, a, ip, du, wu, ocfg⟩)) "oauth2_config"
      = ocfg.map (fun c => Json.obj c.toWire) := by
    simp [getField, CreateExtension.toWire, lookup_cons_eq, lookup_cons_ne,
      lookup_optEntry_ne, lookup_optEntry_here, lookup_optEntry_self,
      lookup_optEntry_none]
  have s1 : reqStrMax (Json.obj (CreateExtension.toWire
      ⟨n, d, u, a, ip, du, wu, ocfg⟩)) "name" 30 = .ok n := by
    simp [reqStrMax, reqStr, reqField, hl1, hn, ok_bind]
  have s2 : reqStrMax (Json.obj (CreateExtension.toWire
      ⟨n, d, u, a, ip, du, wu, ocfg⟩)) "description" 400 = .ok d := by
    simp [reqStrMax, reqStr, reqField, hl2, hd, ok_bind]
  have s3 : reqUrl (Json.obj (CreateExtension.toWire
      ⟨n, d, u, a, ip, du, wu, ocfg⟩)) "base_api_url" = .ok u := by
    simp [reqUrl, reqStr, reqField, hl3, hu, ok_bind]
  have s4 : reqEnum AuthType.ofWire (Json.obj (CreateExtension.toWire
      ⟨n, d, u, a, ip, du, wu, ocfg⟩)) "auth_type" = .ok a := by
    simp [reqEnum, reqStr, reqField, hl4, at_ofWire_toWire, ok_bind]
  have s5 : reqBool (Json.obj (CreateExtension.toWire
      ⟨n, d, u, a, ip, du, wu, ocfg⟩)) "is_paid" = .ok ip := by
    simp [reqBool, reqField, hl5, ok_bind]
  cases ocfg with
  | none =>
      simp [CreateExtension.parse, s1, s2, s3, s4, s5,
        optUrl_of_lookup hldu hdu, optUrl_of_lookup hlwu hwu, hloc, ok_bind]
  | some c =>
      simp [CreateExtension.parse, s1, s2, s3, s4, s5,
        optUrl_of_lookup hldu hdu, optUrl_of_lookup hlwu hwu, hloc,
        hoc c rfl, ok_bind, Except.map]

/-- C7: for every validly constructed request entity, serializing to the
wire and parsing back yields an entity field-for-field equal to the
original, for CreateContact, CreateMessage, RequestVerification,
CheckVerification and CreateExtension (the latter both without a nested
OAuth2 config and with one itself validly constructed) alike. -/
theorem serialize_parse_roundtrip :
    (∀ (name : Option String) (numero : String) (groups : List String)
        (c : CreateContact), mkCreateContact name numero groups = .ok c →
        CreateContact.parse (.obj c.toWire) = .ok c)
    ∧ (∀ (sn : String) (tos : List String) (msg : String) (m : CreateMessage),
        mkCreateMessage sn tos msg = .ok m →
        CreateMessage.parse (.obj m.toWire) = .ok m)
    ∧ (∀ (vid : Option String) (t : String) (msg sn : Option String)
        (et a : Option Int) (code : Option String) (cl : Option Int)
        (url : Option String) (v : RequestVerification),
        mkRequestVerification vid t msg sn et a code cl url = .ok v →
        RequestVerification.parse (.obj v.toWire) = .ok v)
    ∧ (∀ (code : Int) (st : Option VerificationStatus) (c : CheckVerification),
        mkCheckVerification code st = .ok c →
        CheckVerification.parse (.obj c.toWire) = .ok c)
    ∧ (∀ (n d u : String) (a : AuthType) (ip : Bool) (du wu : Option String)
        (e : CreateExtension),
        mkCreateExtension n d u a ip du wu none = .ok e →
        CreateExtension.parse (.obj e.toWire) = .ok e)
    ∧ (∀ (ci cs au tu ss ru : String) (avs : List (String × String))
        (rs : List String) (cfg : OAuth2Config) (n d u : String) (a : AuthType)
        (ip : Bool) (du wu : Option String) (e : CreateExtension),
        mkOAuth2Config ci cs au tu ss ru avs rs = .ok cfg →
        mkCreateExtension n d u a ip du wu (some cfg) = .ok e →
        CreateExtension.parse (.obj e.toWire) = .ok e) :=
  ⟨cc_roundtrip_aux, cm_roundtrip_aux, rv_roundtrip_aux, cv_roundtrip_aux,
   fun n d u a ip du wu e h =>
     ce_roundtrip_core n d u a ip du wu none e (fun _ hc => nomatch hc) h,
   fun ci cs au tu ss ru avs rs cfg n d u a ip du wu e hcfg h =>
     ce_roundtrip_core n d u a ip du wu (some cfg) e
       (fun c hc => by
         cases hc
         exact oc_roundtrip_aux ci cs au tu ss ru avs rs _ hcfg) h⟩

/-- C7 witness: concrete round trips for all five request entities, the
extension once without and once with a nested OAuth2 config. -/
theorem serialize_parse_roundtrip_witness :
    CreateContact.parse (.obj (CreateContact.toWire ⟨some "Alice", "123456789", ["g1"]⟩))
      = .ok ⟨some "Alice", "123456789", ["g1"]⟩
    ∧ CreateMessage.parse (.obj (CreateMessage.toWire ⟨"SENDER", ["623000000"], "Hi"⟩))
      = .ok ⟨"SENDER", ["623000000"], "Hi"⟩
    ∧ RequestVerification.parse (.obj (RequestVerification.toWire
        ⟨defaultVerificationId, "623000000", some "Code", some "SENDER",
         some 10, some 3, some "1234", some 4, some "https://example.com/v"⟩))
      = .ok ⟨defaultVerificationId, "623000000", some "Code", some "SENDER",
             some 10, some 3, some "1234", some 4, some "https://example.com/v"⟩
    ∧ CheckVerification.parse (.obj (CheckVerification.toWire ⟨1234, some .APPROVED⟩))
      = .ok ⟨1234, some .APPROVED⟩
    ∧ CreateExtension.parse (.obj (CreateExtension.toWire
        ⟨"Ext", "Desc", "https://api.example.com", .NONE, true,
         none, none, none⟩))
      = .ok ⟨"Ext", "Desc", "https://api.example.com", .NONE, true,
             none, none, none⟩
    ∧ CreateExtension.parse (.obj (CreateExtension.toWire
        ⟨"Ext", "Desc", "https://api.example.com", .OAUTH2, true,
         some "https://docs.example.com", none,
         some ⟨"id1", "secret1", "https://auth.example.com/a",
               "https://auth.example.com/t", " ", "https://auth.example.com/r",
               [("read", "Read data")], ["read"]⟩⟩))
      = .ok ⟨"Ext", "Desc", "https://api.example.com", .OAUTH2, true,
             some "https://docs.example.com", none,
             some ⟨"id1", "secret1", "https://auth.example.com/a",
                   "https://auth.example.com/t", " ", "https://auth.example.com/r",
                   [("read", "Read data")], ["read"]⟩⟩ :=
  ⟨serialize_parse_roundtrip.1 (some "Alice") "123456789" ["g1"] _ rfl,
   serialize_parse_roundtrip.2.1 "SENDER" ["623000000"] "Hi" _ rfl,
   serialize_parse_roundtrip.2.2.1 (some defaultVerificationId) "623000000"
     (some "Code") (some "SENDER") (some 10) (some 3) (some "1234") (some 4)
     (some "https://example.com/v") _ rfl,
   serialize_parse_roundtrip.2.2.2.1 1234 (some .APPROVED) _ rfl,
   serialize_parse_roundtrip.2.2.2.2.1 "Ext" "Desc" "https://api.example.com"
     .NONE true none none _ rfl,
   serialize_parse_roundtrip.2.2.2.2.2 "id1" "secret1" "https://auth.example.com/a"
     "https://auth.example.com/t" " " "https://auth.example.com/r"
     [("read", "Read data")] ["read"] _ "Ext" "Desc" "https://api.example.com"
     .OAUTH2 true (some "https://docs.example.com") none _ rfl rfl⟩

end Nimba
